import Mathlib

/-!
Shallow embedding of the nestvault backup orchestrator core
(`src/nestvault/retention.py`, `scheduler.py`, `restore.py`,
`storage/s3.py`, `storage/r2.py`), together with theorems checking the
specification's claims against it.

External collaborators (the database dump tools, the boto3/b2 clients,
the real clock, croniter) are modelled as injected parameters; the code
of the repository itself is translated faithfully below.
-/

namespace NestVault

/-! ### Time model

Python `datetime` values are modelled by a wall-clock reading in seconds
together with an optional timezone offset (in seconds); `tzOffset = none`
is a naive datetime.  Aware datetimes compare by their absolute instant
`wall - offset`; `replace(tzinfo=timezone.utc)` sets the offset to `0`
keeping the wall-clock field. -/

structure PyDateTime where
  wall : Int
  tzOffset : Option Int
  deriving DecidableEq, Repr

/-- The absolute instant of a datetime (UTC seconds). -/
def pyInstant (t : PyDateTime) : Int :=
  t.wall - t.tzOffset.getD 0

/-- `last_modified.replace(tzinfo=timezone.utc)` applied only when the
value is naive, as in `retention.get_expired_backups`. -/
def ensureUTC (t : PyDateTime) : PyDateTime :=
  match t.tzOffset with
  | none => { t with tzOffset := some 0 }
  | some _ => t

/-- `timedelta(days=1)` in seconds. -/
def secondsPerDay : Int := 86400

/-! ### Data model: `storage/base.py` -/

/-- `StorageObject` dataclass from `storage/base.py`. -/
structure StorageObject where
  key : String
  size : Nat
  last_modified : PyDateTime
  deriving DecidableEq, Repr

/-- The exception taxonomy of `exceptions.py` plus Python built-ins used
by the code.  `retentionError` carries the original cause, which the
Python code embeds in the message string of the re-raised
`RetentionError`. -/
inductive PyExc where
  | backupError (msg : String)
  | storageError (msg : String)
  | retentionError (cause : PyExc)
  | valueError (msg : String)
  | otherError (msg : String)
  deriving DecidableEq, Repr

/-! ### Retention engine: `retention.py` -/

/-- `retention.get_expired_backups`.  The Python code builds `cutoff =
now - timedelta(days=retention_days)` (tz field unchanged) and appends
every object whose UTC-coerced `last_modified` is strictly below the
cutoff; the accumulation loop is exactly a filter. -/
def get_expired_backups (objects : List StorageObject) (retention_days : Int)
    (now : PyDateTime) : List StorageObject :=
  let cutoff : PyDateTime := { now with wall := now.wall - retention_days * secondsPerDay }
  objects.filter (fun obj =>
    let lm := ensureUTC obj.last_modified
    decide (pyInstant lm < pyInstant cutoff))

/-! ### Claim C1 -/

/-- C1: for every retention window `d ≥ 1`, object list and aware
instant `now`, `get_expired_backups` returns exactly the objects whose
`last_modified` (treated as UTC when naive) is strictly before
`now - d` days; an object exactly `d` days old is retained. -/
theorem get_expired_backups_correct (objects : List StorageObject) (d : Int)
    (now : PyDateTime) (hd : 1 ≤ d) (hnow : now.tzOffset.isSome) :
    get_expired_backups objects d now =
      objects.filter (fun obj =>
        decide (pyInstant (ensureUTC obj.last_modified) <
          pyInstant now - d * secondsPerDay)) ∧
    ∀ obj ∈ objects,
      pyInstant (ensureUTC obj.last_modified) = pyInstant now - d * secondsPerDay →
      obj ∉ get_expired_backups objects d now := by
  have hcut : pyInstant { now with wall := now.wall - d * secondsPerDay } =
      pyInstant now - d * secondsPerDay := by
    simp [pyInstant]
    ring
  constructor
  · unfold get_expired_backups
    refine List.filter_congr ?_
    intro obj _
    simp [hcut]
  · intro obj hmem heq hin
    unfold get_expired_backups at hin
    simp only [List.mem_filter, decide_eq_true_eq] at hin
    rw [hcut] at hin
    omega

/-- Scenario A of the spec: `now = 2024-01-15T12:00:00Z`, objects one,
seven and eight days old, `retention_days = 7`. -/
def nowScenarioA : PyDateTime := ⟨1705320000, some 0⟩

def objOneDay : StorageObject := ⟨"db_20240114_120000.sql.gz", 10, ⟨1705320000 - 86400, some 0⟩⟩

def objSevenDays : StorageObject := ⟨"db_20240108_120000.sql.gz", 10, ⟨1705320000 - 7 * 86400, some 0⟩⟩

def objEightDays : StorageObject := ⟨"db_20240107_120000.sql.gz", 10, ⟨1705320000 - 8 * 86400, some 0⟩⟩

/-- Witness for C1 at Scenario A inputs. -/
theorem get_expired_backups_correct_witness :
    (1 ≤ (7 : Int)) ∧ nowScenarioA.tzOffset.isSome ∧
    (get_expired_backups [objOneDay, objSevenDays, objEightDays] 7 nowScenarioA =
      [objOneDay, objSevenDays, objEightDays].filter (fun obj =>
        decide (pyInstant (ensureUTC obj.last_modified) <
          pyInstant nowScenarioA - 7 * secondsPerDay)) ∧
    ∀ obj ∈ [objOneDay, objSevenDays, objEightDays],
      pyInstant (ensureUTC obj.last_modified) =
        pyInstant nowScenarioA - 7 * secondsPerDay →
      obj ∉ get_expired_backups [objOneDay, objSevenDays, objEightDays] 7 nowScenarioA) :=
  ⟨by decide, by decide,
    get_expired_backups_correct [objOneDay, objSevenDays, objEightDays] 7 nowScenarioA
      (by decide) (by decide)⟩

/-! ### Capability models

The storage and backup capabilities are opaque external collaborators;
their behaviour is injected as result functions, exactly as the Python
code sees them through `StorageAdapter` and `BackupAdapter`.  `Except`
models a call that either returns or raises. -/

/-- Behaviour of a `StorageAdapter` instance as observed by the core. -/
structure StorageModel where
  listResult : String → Except PyExc (List StorageObject)
  uploadResult : String → Except PyExc Unit
  downloadResult : String → Except PyExc Unit
  deleteManyResult : List String → Except PyExc Unit

/-- Behaviour of a `BackupAdapter` instance as observed by the core.
`backupResult` yields the name of the snapshot file it produced. -/
structure BackupModel where
  database_name : String
  backupResult : Except PyExc String
  restoreResult : String → Except PyExc Unit

/-- A storage call issued by `cleanup_old_backups`. -/
inductive StorageCall where
  | listCall (pre : String)
  | deleteManyCall (keys : List String)
  deriving DecidableEq, Repr

/-- `retention.cleanup_old_backups`: list under the given key filter,
compute the expired set, delete them in one `delete_many` call when
non-empty, return the count; any exception is re-raised as
`RetentionError` carrying the cause.  The second component records the
storage calls issued. -/
def cleanup_old_backups (storage : StorageModel) (retention_days : Int)
    (pre : String) (now : PyDateTime) : Except PyExc Nat × List StorageCall :=
  match storage.listResult pre with
  | .error e => (.error (.retentionError e), [.listCall pre])
  | .ok objects =>
    let expired := get_expired_backups objects retention_days now
    if expired.isEmpty then
      (.ok 0, [.listCall pre])
    else
      let keys_to_delete := expired.map (·.key)
      match storage.deleteManyResult keys_to_delete with
      | .error e =>
          (.error (.retentionError e), [.listCall pre, .deleteManyCall keys_to_delete])
      | .ok _ =>
          (.ok expired.length, [.listCall pre, .deleteManyCall keys_to_delete])

/-! ### Claim C5 -/

/-- C5: `cleanup_old_backups` lists storage under the given key filter,
deletes all expired objects in one `delete_many` call only when the
expired set is non-empty, returns the number deleted (0 with no delete
call when none), and wraps any listing or deletion exception in
`RetentionError` carrying the original cause. -/
theorem cleanup_old_backups_correct (s : StorageModel) (d : Int) (pre : String)
    (now : PyDateTime) :
    (∀ e, s.listResult pre = .error e →
      cleanup_old_backups s d pre now = (.error (.retentionError e), [.listCall pre])) ∧
    (∀ objects, s.listResult pre = .ok objects →
      (get_expired_backups objects d now = [] →
        cleanup_old_backups s d pre now = (.ok 0, [.listCall pre])) ∧
      (get_expired_backups objects d now ≠ [] →
        (∀ e, s.deleteManyResult ((get_expired_backups objects d now).map (·.key)) =
            .error e →
          cleanup_old_backups s d pre now =
            (.error (.retentionError e),
             [.listCall pre,
              .deleteManyCall ((get_expired_backups objects d now).map (·.key))])) ∧
        (s.deleteManyResult ((get_expired_backups objects d now).map (·.key)) = .ok () →
          cleanup_old_backups s d pre now =
            (.ok (get_expired_backups objects d now).length,
             [.listCall pre,
              .deleteManyCall ((get_expired_backups objects d now).map (·.key))])))) := by
  refine ⟨fun e he => ?_, fun objects hobj => ?_⟩
  · simp [cleanup_old_backups, he]
  · refine ⟨fun hemp => ?_, fun hne => ⟨fun e hdel => ?_, fun hdel => ?_⟩⟩
    · simp [cleanup_old_backups, hobj, List.isEmpty_iff, hemp]
    · simp [cleanup_old_backups, hobj, List.isEmpty_iff, hne, hdel]
    · simp [cleanup_old_backups, hobj, List.isEmpty_iff, hne, hdel]

/-- A storage whose listing yields Scenario A's objects and whose
deletions succeed. -/
def storageScenarioA : StorageModel where
  listResult := fun _ => .ok [objOneDay, objSevenDays, objEightDays]
  uploadResult := fun _ => .ok ()
  downloadResult := fun _ => .ok ()
  deleteManyResult := fun _ => .ok ()

/-- Witness for C5: at Scenario A, exactly the eight-day-old object is
deleted, in one batched call, and the count comes back as 1. -/
theorem cleanup_old_backups_correct_witness :
    storageScenarioA.listResult "db" = .ok [objOneDay, objSevenDays, objEightDays] ∧
    get_expired_backups [objOneDay, objSevenDays, objEightDays] 7 nowScenarioA ≠ [] ∧
    storageScenarioA.deleteManyResult
      ((get_expired_backups [objOneDay, objSevenDays, objEightDays] 7
          nowScenarioA).map (·.key)) = .ok () ∧
    cleanup_old_backups storageScenarioA 7 "db" nowScenarioA =
      (.ok (get_expired_backups [objOneDay, objSevenDays, objEightDays] 7
          nowScenarioA).length,
       [.listCall "db",
        .deleteManyCall ((get_expired_backups [objOneDay, objSevenDays, objEightDays] 7
            nowScenarioA).map (·.key))]) :=
  ⟨rfl, by decide, rfl,
    (((cleanup_old_backups_correct storageScenarioA 7 "db" nowScenarioA).2
        [objOneDay, objSevenDays, objEightDays] rfl).2 (by decide)).2 rfl⟩

/-! ### Backup job: `scheduler.run_backup_job` -/

/-- A step of `run_backup_job`, in issue order. -/
inductive JobStep where
  | backupStep
  | uploadStep (key : String)
  | cleanupStep
  deriving DecidableEq, Repr

/-- The body of `scheduler.run_backup_job` before its `except` clauses:
backup into the scoped temporary directory, upload under the snapshot's
file name, then retention cleanup under the database-name key filter.
Errors propagate. -/
def run_backup_job_body (b : BackupModel) (s : StorageModel) (retention_days : Int)
    (now : PyDateTime) : Except PyExc Bool × List JobStep :=
  match b.backupResult with
  | .error e => (.error e, [.backupStep])
  | .ok backup_file =>
    match s.uploadResult backup_file with
    | .error e => (.error e, [.backupStep, .uploadStep backup_file])
    | .ok _ =>
      match (cleanup_old_backups s retention_days b.database_name now).1 with
      | .error e => (.error e, [.backupStep, .uploadStep backup_file, .cleanupStep])
      | .ok _ => (.ok true, [.backupStep, .uploadStep backup_file, .cleanupStep])

/-- `scheduler.run_backup_job`: the `except BackupError / StorageError /
Exception` clauses turn every raised exception into the boolean `False`. -/
def run_backup_job (b : BackupModel) (s : StorageModel) (retention_days : Int)
    (now : PyDateTime) : Bool × List JobStep :=
  let r := run_backup_job_body b s retention_days now
  (match r.1 with
   | .ok v => v
   | .error _ => false,
   r.2)

/-! ### Claim C2 -/

/-- C2: a backup job performs backup, then upload, then cleanup, in that
order; if backup succeeds and upload raises `StorageError` the job
returns failure with no cleanup call; and every exception raised inside
the body is converted to a boolean outcome, never re-raised. -/
theorem run_backup_job_correct (b : BackupModel) (s : StorageModel) (d : Int)
    (now : PyDateTime) :
    (∃ name,
      (run_backup_job b s d now).2 = [.backupStep] ∨
      (run_backup_job b s d now).2 = [.backupStep, .uploadStep name] ∨
      (run_backup_job b s d now).2 = [.backupStep, .uploadStep name, .cleanupStep]) ∧
    (∀ name m, b.backupResult = .ok name →
      s.uploadResult name = .error (.storageError m) →
      run_backup_job b s d now = (false, [.backupStep, .uploadStep name])) ∧
    (∀ e, (run_backup_job_body b s d now).1 = .error e →
      (run_backup_job b s d now).1 = false) := by
  refine ⟨?_, fun name m hb hu => ?_, fun e he => ?_⟩
  · unfold run_backup_job run_backup_job_body
    rcases hb : b.backupResult with e | name
    · exact ⟨"", by simp⟩
    · refine ⟨name, ?_⟩
      rcases hu : s.uploadResult name with e | u
      · simp [hu]
      · rcases hc : (cleanup_old_backups s d b.database_name now).1 with e | n <;>
          simp [hu, hc]
  · simp [run_backup_job, run_backup_job_body, hb, hu]
  · simp only [run_backup_job]
    rw [he]

/-- Backup capability that succeeds, producing snapshot `db_x.sql.gz`. -/
def backupOk : BackupModel where
  database_name := "db"
  backupResult := .ok "db_x.sql.gz"
  restoreResult := fun _ => .ok ()

/-- Storage whose upload always raises `StorageError` (Scenario D). -/
def storageUploadFail : StorageModel where
  listResult := fun _ => .ok []
  uploadResult := fun _ => .error (.storageError "connection reset")
  downloadResult := fun _ => .ok ()
  deleteManyResult := fun _ => .ok ()

/-- Witness for C2 at Scenario D: backup succeeds, upload raises
`StorageError`, the job fails and no cleanup call is issued. -/
theorem run_backup_job_correct_witness :
    backupOk.backupResult = .ok "db_x.sql.gz" ∧
    storageUploadFail.uploadResult "db_x.sql.gz" =
      .error (.storageError "connection reset") ∧
    run_backup_job backupOk storageUploadFail 7 nowScenarioA =
      (false, [.backupStep, .uploadStep "db_x.sql.gz"]) :=
  ⟨rfl, rfl,
    (run_backup_job_correct backupOk storageUploadFail 7 nowScenarioA).2.1
      "db_x.sql.gz" "connection reset" rfl rfl⟩

/-! ### Claim C10 -/

/-- C10: when backup and upload succeed but retention cleanup raises
`RetentionError`, the job catches it and returns failure, the cleanup
step having been attempted after the upload. -/
theorem run_backup_job_retention_failure (b : BackupModel) (s : StorageModel)
    (d : Int) (now : PyDateTime) (name : String) (e : PyExc)
    (hb : b.backupResult = .ok name)
    (hu : s.uploadResult name = .ok ())
    (hc : (cleanup_old_backups s d b.database_name now).1 =
      .error (.retentionError e)) :
    (run_backup_job b s d now).1 = false ∧
    (run_backup_job b s d now).2 = [.backupStep, .uploadStep name, .cleanupStep] := by
  constructor <;> simp [run_backup_job, run_backup_job_body, hb, hu, hc]

/-- Storage whose listing raises, so that retention cleanup fails while
upload succeeds. -/
def storageListFail : StorageModel where
  listResult := fun _ => .error (.storageError "list timeout")
  uploadResult := fun _ => .ok ()
  downloadResult := fun _ => .ok ()
  deleteManyResult := fun _ => .ok ()

/-- Witness for C10: backup and upload succeed, cleanup raises
`RetentionError`, the job returns failure. -/
theorem run_backup_job_retention_failure_witness :
    backupOk.backupResult = .ok "db_x.sql.gz" ∧
    storageListFail.uploadResult "db_x.sql.gz" = .ok () ∧
    (cleanup_old_backups storageListFail 7 backupOk.database_name nowScenarioA).1 =
      .error (.retentionError (.storageError "list timeout")) ∧
    (run_backup_job backupOk storageListFail 7 nowScenarioA).1 = false ∧
    (run_backup_job backupOk storageListFail 7 nowScenarioA).2 =
      [.backupStep, .uploadStep "db_x.sql.gz", .cleanupStep] :=
  ⟨rfl, rfl, rfl,
    (run_backup_job_retention_failure backupOk storageListFail 7 nowScenarioA
      "db_x.sql.gz" (.storageError "list timeout") rfl rfl rfl).1,
    (run_backup_job_retention_failure backupOk storageListFail 7 nowScenarioA
      "db_x.sql.gz" (.storageError "list timeout") rfl rfl rfl).2⟩

/-! ### Restore workflow: `restore.py` -/

/-- The Python key function `lambda x: x.last_modified` with
`reverse=True`: `a` may precede `b` when `a.last_modified` is at least
`b.last_modified`. -/
def lmGe (a b : StorageObject) : Prop :=
  pyInstant b.last_modified ≤ pyInstant a.last_modified

instance : DecidableRel lmGe := fun a b =>
  inferInstanceAs (Decidable (pyInstant b.last_modified ≤ pyInstant a.last_modified))

instance : IsTotal StorageObject lmGe :=
  ⟨fun a b => Int.le_total (pyInstant b.last_modified) (pyInstant a.last_modified)⟩

instance : IsTrans StorageObject lmGe :=
  ⟨fun _ _ _ hab hbc => le_trans hbc hab⟩

/-- `objects.sort(key=lambda x: x.last_modified, reverse=True)`:
Python's sort is stable, so on a total preorder it coincides with stable
insertion sort under `lmGe`. -/
def sort_backups (objects : List StorageObject) : List StorageObject :=
  List.insertionSort lmGe objects

/-- `restore.list_available_backups`: list under the database-name key
filter (`database_name or ""`), sort by `last_modified` descending,
return the keys.  A `StorageError` from the listing propagates. -/
def list_available_backups (s : StorageModel) (database_name : Option String) :
    Except PyExc (List String) :=
  let pre := database_name.getD ""
  match s.listResult pre with
  | .error e => .error e
  | .ok objects => .ok ((sort_backups objects).map (·.key))

/-- A step of `restore_backup`, in issue order.  `tempDirRemoved`
records the scoped `TemporaryDirectory` being torn down. -/
inductive RestoreStep where
  | downloadStep (key : String)
  | restoreStep (localFile : String)
  | tempDirRemoved
  deriving DecidableEq, Repr

/-- Body of `restore.restore_backup` inside the `with` block: download
the key into the scoped temporary directory, then restore from the
downloaded file.  Errors propagate. -/
def restore_backup_body (s : StorageModel) (b : BackupModel) (backup_key : String) :
    Except PyExc Unit × List RestoreStep :=
  match s.downloadResult backup_key with
  | .error e => (.error e, [.downloadStep backup_key])
  | .ok _ =>
    match b.restoreResult backup_key with
    | .error e => (.error e, [.downloadStep backup_key, .restoreStep backup_key])
    | .ok _ => (.ok (), [.downloadStep backup_key, .restoreStep backup_key])

/-- `restore.restore_backup`: the `with TemporaryDirectory` context
manager removes the temporary directory on every exit path, and the
`except StorageError / BackupError / Exception` clauses convert every
raised exception into the boolean `False`. -/
def restore_backup (s : StorageModel) (b : BackupModel) (backup_key : String) :
    Bool × List RestoreStep :=
  let body := restore_backup_body s b backup_key
  (match body.1 with
   | .ok _ => true
   | .error _ => false,
   body.2 ++ [.tempDirRemoved])

/-- `restore.restore_latest_backup`: list the backups for the
capability's database name, return `False` when there are none,
otherwise delegate to `restore_backup` on the first key. -/
def restore_latest_backup (s : StorageModel) (b : BackupModel) : Except PyExc Bool :=
  match list_available_backups s (some b.database_name) with
  | .error e => .error e
  | .ok [] => .ok false
  | .ok (latest :: _) => .ok (restore_backup s b latest).1

/-! ### Claim C3 -/

/-- C3: `restore_backup` downloads the key into the scoped temporary
location, then restores from the downloaded file; it returns `true` when
both succeed, `false` (not an exception) on a storage or restore error,
and the temporary directory is removed on every exit path. -/
theorem restore_backup_correct (s : StorageModel) (b : BackupModel) (key : String) :
    RestoreStep.tempDirRemoved ∈ (restore_backup s b key).2 ∧
    (s.downloadResult key = .ok () → b.restoreResult key = .ok () →
      restore_backup s b key =
        (true, [.downloadStep key, .restoreStep key, .tempDirRemoved])) ∧
    (∀ e, s.downloadResult key = .error e →
      restore_backup s b key = (false, [.downloadStep key, .tempDirRemoved])) ∧
    (∀ e, b.restoreResult key = .error e → (restore_backup s b key).1 = false) := by
  refine ⟨?_, fun hdl hrs => ?_, fun e hdl => ?_, fun e hrs => ?_⟩
  · unfold restore_backup
    simp
  · simp [restore_backup, restore_backup_body, hdl, hrs]
  · simp [restore_backup, restore_backup_body, hdl]
  · rcases hdl : s.downloadResult key with e2 | u
    · simp [restore_backup, restore_backup_body, hdl]
    · simp [restore_backup, restore_backup_body, hdl, hrs]

/-- Storage whose download always raises `StorageError`. -/
def storageDownloadFail : StorageModel where
  listResult := fun _ => .ok []
  uploadResult := fun _ => .ok ()
  downloadResult := fun _ => .error (.storageError "404 NoSuchKey")
  deleteManyResult := fun _ => .ok ()

/-- Witness for C3: a failing download makes `restore_backup` return
`false`, with the temporary directory still removed. -/
theorem restore_backup_correct_witness :
    storageDownloadFail.downloadResult "db_x.sql.gz" =
      .error (.storageError "404 NoSuchKey") ∧
    restore_backup storageDownloadFail backupOk "db_x.sql.gz" =
      (false, [.downloadStep "db_x.sql.gz", .tempDirRemoved]) :=
  ⟨rfl,
    (restore_backup_correct storageDownloadFail backupOk "db_x.sql.gz").2.2.1
      (.storageError "404 NoSuchKey") rfl⟩

/-! ### Claim C7 -/

/-- C7: `restore_latest_backup` selects the first entry of
`list_available_backups` for the capability's database name and
delegates to `restore_backup` on it; when the listing is empty it
returns `false` without raising, and `list_available_backups` itself
returns the empty list. -/
theorem restore_latest_backup_correct (s : StorageModel) (b : BackupModel) :
    (s.listResult b.database_name = .ok [] →
      restore_latest_backup s b = .ok false ∧
      list_available_backups s (some b.database_name) = .ok []) ∧
    (∀ ks, list_available_backups s (some b.database_name) = .ok ks →
      (ks = [] → restore_latest_backup s b = .ok false) ∧
      ∀ k kt, ks = k :: kt →
        restore_latest_backup s b = .ok (restore_backup s b k).1) := by
  constructor
  · intro h
    have hl : list_available_backups s (some b.database_name) = .ok [] := by
      simp [list_available_backups, h, sort_backups]
    exact ⟨by simp [restore_latest_backup, hl], hl⟩
  · intro ks hks
    constructor
    · rintro rfl
      simp [restore_latest_backup, hks]
    · rintro k kt rfl
      simp [restore_latest_backup, hks]

/-- Storage holding no objects at all (Scenario C). -/
def storageEmpty : StorageModel where
  listResult := fun _ => .ok []
  uploadResult := fun _ => .ok ()
  downloadResult := fun _ => .ok ()
  deleteManyResult := fun _ => .ok ()

/-- Witness for C7 at Scenario C: no backups exist, `restore_latest`
returns `false` without raising and the listing is empty. -/
theorem restore_latest_backup_correct_witness :
    storageEmpty.listResult backupOk.database_name = .ok [] ∧
    restore_latest_backup storageEmpty backupOk = .ok false ∧
    list_available_backups storageEmpty (some backupOk.database_name) = .ok [] :=
  ⟨rfl,
    ((restore_latest_backup_correct storageEmpty backupOk).1 rfl).1,
    ((restore_latest_backup_correct storageEmpty backupOk).1 rfl).2⟩

/-! ### Claim C4 -/

/-- Strict lexicographic order on keys (kernel-reducible form of
`String` comparison). -/
def keyLt (a b : String) : Prop := List.Lex (· < ·) a.data b.data

instance : DecidableRel keyLt := fun a b =>
  inferInstanceAs (Decidable (List.Lex _ _ _))

/-- Key order, equal or lexicographically smaller. -/
def keyLe (a b : String) : Prop := a = b ∨ keyLt a b

instance : DecidableRel keyLe := fun a b =>
  inferInstanceAs (Decidable (_ ∨ _))

/-- The ordering the spec asks for: `last_modified` descending with ties
broken by key ascending. -/
def specTieOrder (a b : StorageObject) : Prop :=
  pyInstant b.last_modified < pyInstant a.last_modified ∨
    (pyInstant a.last_modified = pyInstant b.last_modified ∧ keyLe a.key b.key)

instance : DecidableRel specTieOrder := fun a b =>
  inferInstanceAs (Decidable (_ ∨ _))

/-- Modelled from the spec: `listAvailable` as §4.4 words it, with keys
ordered by `last_modified` descending and ties broken by key ascending.
Used only to compare the code's behaviour against the claim. -/
def list_available_backups_specOrder (s : StorageModel)
    (database_name : Option String) : Except PyExc (List String) :=
  let pre := database_name.getD ""
  match s.listResult pre with
  | .error e => .error e
  | .ok objects => .ok ((List.insertionSort specTieOrder objects).map (·.key))

/-- Two objects sharing one `last_modified` instant, listed by the
storage capability in key-descending order.  The capability contract
(`storage/base.py`, spec §4.2) gives no listing-order guarantee. -/
def tieTime : PyDateTime := ⟨1705320000, some 0⟩

def objKeyB : StorageObject := ⟨"b", 1, tieTime⟩

def objKeyA : StorageObject := ⟨"a", 1, tieTime⟩

def storageTie : StorageModel where
  listResult := fun _ => .ok [objKeyB, objKeyA]
  uploadResult := fun _ => .ok ()
  downloadResult := fun _ => .ok ()
  deleteManyResult := fun _ => .ok ()

/-- Counterexample to C4: on a storage state listing two objects with
equal `last_modified` in key-descending order, the code returns
`["b", "a"]` while the claimed key-ascending tie order demands
`["a", "b"]`.  Python's `list.sort` is stable and sorts on
`last_modified` alone, so ties keep the listing's order. -/
theorem list_available_backups_tie_counterexample :
    objKeyB.last_modified = objKeyA.last_modified ∧
    list_available_backups storageTie (some "") = .ok ["b", "a"] ∧
    list_available_backups_specOrder storageTie (some "") = .ok ["a", "b"] ∧
    list_available_backups storageTie (some "") ≠
      list_available_backups_specOrder storageTie (some "") := by
  have h1 : list_available_backups storageTie (some "") = .ok ["b", "a"] := rfl
  have h2 : list_available_backups_specOrder storageTie (some "") = .ok ["a", "b"] := rfl
  refine ⟨rfl, h1, h2, ?_⟩
  rw [h1, h2]
  intro h
  exact absurd (Except.ok.inj h) (by decide)

/-- C4 (amended): `list_available_backups` returns the keys of the
listed objects ordered by `last_modified` descending; objects with equal
`last_modified` keep the relative order in which the storage listing
returned them (Python's sort is stable), rather than key-ascending
order; the output keys are a permutation of the listing's keys. -/
theorem list_available_backups_sorted_stable (s : StorageModel)
    (dbn : Option String) (objects : List StorageObject)
    (h : s.listResult (dbn.getD "") = .ok objects) :
    list_available_backups s dbn = .ok ((sort_backups objects).map (·.key)) ∧
    List.Sorted lmGe (sort_backups objects) ∧
    (sort_backups objects).Perm objects ∧
    ∀ a b, pyInstant a.last_modified = pyInstant b.last_modified →
      List.Sublist [a, b] objects → List.Sublist [a, b] (sort_backups objects) := by
  refine ⟨?_, ?_, ?_, fun a b he hab => ?_⟩
  · simp [list_available_backups, h]
  · exact List.sorted_insertionSort lmGe objects
  · exact List.perm_insertionSort lmGe objects
  · exact List.pair_sublist_insertionSort he.ge hab

/-- Witness for the amended C4 on the tie listing: the stable sort keeps
`"b"` before `"a"`. -/
theorem list_available_backups_sorted_stable_witness :
    storageTie.listResult ((some "").getD "") = .ok [objKeyB, objKeyA] ∧
    (list_available_backups storageTie (some "") =
      .ok ((sort_backups [objKeyB, objKeyA]).map (·.key)) ∧
    List.Sorted lmGe (sort_backups [objKeyB, objKeyA]) ∧
    (sort_backups [objKeyB, objKeyA]).Perm [objKeyB, objKeyA] ∧
    ∀ a b, pyInstant a.last_modified = pyInstant b.last_modified →
      List.Sublist [a, b] [objKeyB, objKeyA] →
      List.Sublist [a, b] (sort_backups [objKeyB, objKeyA])) :=
  ⟨rfl, list_available_backups_sorted_stable storageTie (some "")
    [objKeyB, objKeyA] rfl⟩

/-! ### S3 adapter batch deletion: `storage/s3.py` -/

/-- Consecutive chunks of at most 1000 keys, as produced by
`range(0, len(delete_objects), 1000)` slicing.  Structural recursion on
a fuel bounded below by the list length. -/
def chunkAux : Nat → List String → List (List String)
  | _, [] => []
  | 0, _ :: _ => []
  | fuel + 1, x :: xs => (x :: xs).take 1000 :: chunkAux fuel ((x :: xs).drop 1000)

/-- The 1000-key chunking of a key list. -/
def chunk1000 (l : List String) : List (List String) :=
  chunkAux l.length l

/-- The `for` loop of `S3StorageAdapter.delete_many`: issue one
`client.delete_objects` call per chunk, sequentially; the first raising
call aborts the loop.  Returns the loop outcome and the calls issued. -/
def runBatches (client : List String → Except String Unit) :
    List (List String) → Except String Unit × List (List String)
  | [] => (.ok (), [])
  | c :: cs =>
    match client c with
    | .error e => (.error e, [c])
    | .ok _ =>
      let rest := runBatches client cs
      (rest.1, c :: rest.2)

/-- `S3StorageAdapter.delete_many`: return immediately on an empty key
list, otherwise delete in chunks of 1000, converting any
`BotoCoreError`/`ClientError` (the `client` error string) into
`StorageError`. -/
def s3_delete_many (client : List String → Except String Unit)
    (remote_keys : List String) : Except PyExc Unit × List (List String) :=
  if remote_keys.isEmpty then (.ok (), [])
  else
    let r := runBatches client (chunk1000 remote_keys)
    match r.1 with
    | .ok _ => (.ok (), r.2)
    | .error e => (.error (.storageError e), r.2)

theorem chunkAux_join (fuel : Nat) (l : List String) (h : l.length ≤ fuel) :
    (chunkAux fuel l).flatten = l := by
  induction fuel generalizing l with
  | zero =>
    cases l with
    | nil => rfl
    | cons x xs => simp at h
  | succ n ih =>
    cases l with
    | nil => rfl
    | cons x xs =>
      have hlen : ((x :: xs).drop 1000).length ≤ n := by
        simp only [List.length_drop, List.length_cons]
        simp only [List.length_cons] at h
        omega
      simp only [chunkAux, List.flatten_cons, ih _ hlen]
      exact List.take_append_drop 1000 (x :: xs)

theorem chunkAux_length (fuel : Nat) (l : List String) (h : l.length ≤ fuel) :
    (chunkAux fuel l).length = (l.length + 999) / 1000 := by
  induction fuel generalizing l with
  | zero =>
    cases l with
    | nil => rfl
    | cons x xs => simp at h
  | succ n ih =>
    cases l with
    | nil => rfl
    | cons x xs =>
      have hlen : ((x :: xs).drop 1000).length ≤ n := by
        simp only [List.length_drop, List.length_cons]
        simp only [List.length_cons] at h
        omega
      simp only [chunkAux, List.length_cons, ih _ hlen, List.length_drop,
        List.length_cons]
      omega

theorem chunkAux_mem (fuel : Nat) (l : List String) (h : l.length ≤ fuel)
    (c : List String) (hc : c ∈ chunkAux fuel l) : c.length ≤ 1000 ∧ c ≠ [] := by
  induction fuel generalizing l with
  | zero =>
    cases l with
    | nil => simp [chunkAux] at hc
    | cons x xs => simp at h
  | succ n ih =>
    cases l with
    | nil => simp [chunkAux] at hc
    | cons x xs =>
      have hlen : ((x :: xs).drop 1000).length ≤ n := by
        simp only [List.length_drop, List.length_cons]
        simp only [List.length_cons] at h
        omega
      simp only [chunkAux, List.mem_cons] at hc
      rcases hc with rfl | hc
      · refine ⟨by simp, ?_⟩
        simp [List.take_cons]
      · exact ih _ hlen hc

theorem runBatches_all_ok (client : List String → Except String Unit)
    (cs : List (List String)) (h : ∀ c ∈ cs, client c = .ok ()) :
    runBatches client cs = (.ok (), cs) := by
  induction cs with
  | nil => rfl
  | cons c cs ih =>
    have hc : client c = .ok () := h c (List.mem_cons_self c cs)
    have hrest := ih (fun x hx => h x (List.mem_cons_of_mem c hx))
    simp [runBatches, hc, hrest]

theorem runBatches_not_ok (client : List String → Except String Unit)
    (cs : List (List String)) (h : ¬ ∀ c ∈ cs, client c = .ok ()) :
    ∃ m, (runBatches client cs).1 = .error m := by
  induction cs with
  | nil => exact absurd (by simp) h
  | cons c cs ih =>
    rcases hc : client c with e | u
    · exact ⟨e, by simp [runBatches, hc]⟩
    · have hcok : client c = .ok () := by rw [hc]
      have hrest : ¬ ∀ x ∈ cs, client x = .ok () := by
        intro hall
        exact h (fun x hx => by
          rcases List.mem_cons.mp hx with rfl | hmem
          · exact hcok
          · exact hall x hmem)
      obtain ⟨m, hm⟩ := ih hrest
      exact ⟨m, by simp [runBatches, hc, hm]⟩

/-! ### Claim C6 -/

/-- C6: on a non-empty key list, `delete_many` partitions the keys into
consecutive chunks of at most 1000 whose concatenation is the input and
issues one underlying `delete_objects` call per chunk — `(n + 999) / 1000`
of them, two for 1500 keys; when every call succeeds the operation
succeeds, and if any underlying call fails the whole operation raises
`StorageError`. -/
theorem s3_delete_many_correct (client : List String → Except String Unit)
    (keys : List String) (hne : keys ≠ []) :
    (chunk1000 keys).flatten = keys ∧
    (chunk1000 keys).length = (keys.length + 999) / 1000 ∧
    (∀ c ∈ chunk1000 keys, c.length ≤ 1000 ∧ c ≠ []) ∧
    ((∀ c ∈ chunk1000 keys, client c = .ok ()) →
      s3_delete_many client keys = (.ok (), chunk1000 keys)) ∧
    ((¬ ∀ c ∈ chunk1000 keys, client c = .ok ()) →
      ∃ m, (s3_delete_many client keys).1 = .error (.storageError m)) := by
  have hemp : keys.isEmpty = false := by
    cases keys with
    | nil => exact absurd rfl hne
    | cons x xs => rfl
  refine ⟨chunkAux_join keys.length keys le_rfl,
    chunkAux_length keys.length keys le_rfl,
    fun c hc => chunkAux_mem keys.length keys le_rfl c hc,
    fun hall => ?_, fun hfail => ?_⟩
  · simp [s3_delete_many, hemp, runBatches_all_ok client (chunk1000 keys) hall]
  · obtain ⟨m, hm⟩ := runBatches_not_ok client (chunk1000 keys) hfail
    refine ⟨m, ?_⟩
    simp [s3_delete_many, hemp, hm]

/-- 1500 keys (Scenario E). -/
def keys1500 : List String := List.replicate 1500 "k"

/-- An underlying client whose batched deletes always succeed. -/
def clientAlwaysOk : List String → Except String Unit := fun _ => .ok ()

/-- Witness for C6 at Scenario E: 1500 keys chunk into exactly two
underlying calls and the operation succeeds when both do. -/
theorem s3_delete_many_correct_witness :
    keys1500 ≠ [] ∧
    ((chunk1000 keys1500).flatten = keys1500 ∧
    (chunk1000 keys1500).length = (keys1500.length + 999) / 1000 ∧
    (∀ c ∈ chunk1000 keys1500, c.length ≤ 1000 ∧ c ≠ []) ∧
    ((∀ c ∈ chunk1000 keys1500, clientAlwaysOk c = .ok ()) →
      s3_delete_many clientAlwaysOk keys1500 = (.ok (), chunk1000 keys1500)) ∧
    ((¬ ∀ c ∈ chunk1000 keys1500, clientAlwaysOk c = .ok ()) →
      ∃ m, (s3_delete_many clientAlwaysOk keys1500).1 =
        .error (.storageError m))) ∧
    (chunk1000 keys1500).length = 2 := by
  have hlen : keys1500.length = 1500 := List.length_replicate 1500 "k"
  have hne : keys1500 ≠ [] := by
    intro h
    have h0 := congrArg List.length h
    rw [hlen] at h0
    simp only [List.length_nil] at h0
    omega
  refine ⟨hne, s3_delete_many_correct clientAlwaysOk keys1500 hne, ?_⟩
  rw [(s3_delete_many_correct clientAlwaysOk keys1500 hne).2.1, hlen]

/-! ### R2 adapter construction: `storage/r2.py` and `storage/s3.py` -/

/-- `config.S3Config`. -/
structure S3Config where
  access_key : String
  secret_key : String
  bucket : String
  region : String
  endpoint : Option String
  deriving DecidableEq, Repr

/-- Python truthiness of an optional string: `None` and `""` are falsy. -/
def optStrTruthy : Option String → Bool
  | none => false
  | some v => v != ""

/-- The keyword arguments `S3StorageAdapter.__init__` hands to
`boto3.client("s3", **client_kwargs)`. -/
structure S3ClientKwargs where
  aws_access_key_id : String
  aws_secret_access_key : String
  region_name : String
  endpoint_url : Option String
  deriving DecidableEq, Repr

/-- `S3StorageAdapter.__init__`: always builds the client, adding
`endpoint_url` only when `config.endpoint` is truthy. -/
def s3_adapter_init (config : S3Config) : S3ClientKwargs :=
  { aws_access_key_id := config.access_key
    aws_secret_access_key := config.secret_key
    region_name := config.region
    endpoint_url := if optStrTruthy config.endpoint then config.endpoint else none }

/-- `R2StorageAdapter.__init__`: raises `ValueError` before touching the
client when the endpoint is missing or empty, and otherwise defers to
the S3 construction unchanged. -/
def r2_adapter_init (config : S3Config) : Except PyExc S3ClientKwargs :=
  if optStrTruthy config.endpoint then .ok (s3_adapter_init config)
  else .error (.valueError "R2 requires S3_ENDPOINT to be configured")

/-! ### Claim C9 -/

/-- C9: constructing the R2 variant with an absent or empty endpoint
raises at construction time, before any storage operation; with a
non-empty endpoint it constructs exactly the generic S3 client
configured with that endpoint. -/
theorem r2_adapter_init_correct (config : S3Config) :
    (config.endpoint = none ∨ config.endpoint = some "" →
      r2_adapter_init config =
        .error (.valueError "R2 requires S3_ENDPOINT to be configured")) ∧
    (∀ ep, config.endpoint = some ep → ep ≠ "" →
      r2_adapter_init config = .ok (s3_adapter_init config) ∧
      (s3_adapter_init config).endpoint_url = some ep) := by
  constructor
  · rintro (h | h) <;> simp [r2_adapter_init, optStrTruthy, h]
  · intro ep hep hne
    have ht : optStrTruthy config.endpoint = true := by
      simp [optStrTruthy, hep, hne]
    refine ⟨by simp [r2_adapter_init, ht], ?_⟩
    simp [s3_adapter_init, optStrTruthy, hep, hne]

/-- An R2 configuration with no endpoint. -/
def cfgNoEndpoint : S3Config :=
  ⟨"AK", "SK", "backups", "auto", none⟩

/-- An R2 configuration with a non-empty custom endpoint. -/
def cfgR2 : S3Config :=
  ⟨"AK", "SK", "backups", "auto", some "https://acct.r2.cloudflarestorage.com"⟩

/-- Witness for C9: construction fails without an endpoint and succeeds
with one, passing the endpoint through to the client. -/
theorem r2_adapter_init_correct_witness :
    (cfgNoEndpoint.endpoint = none ∨ cfgNoEndpoint.endpoint = some "") ∧
    r2_adapter_init cfgNoEndpoint =
      .error (.valueError "R2 requires S3_ENDPOINT to be configured") ∧
    cfgR2.endpoint = some "https://acct.r2.cloudflarestorage.com" ∧
    "https://acct.r2.cloudflarestorage.com" ≠ "" ∧
    r2_adapter_init cfgR2 = .ok (s3_adapter_init cfgR2) ∧
    (s3_adapter_init cfgR2).endpoint_url =
      some "https://acct.r2.cloudflarestorage.com" :=
  ⟨Or.inl rfl,
    (r2_adapter_init_correct cfgNoEndpoint).1 (Or.inl rfl),
    rfl, by decide,
    ((r2_adapter_init_correct cfgR2).2 "https://acct.r2.cloudflarestorage.com"
      rfl (by decide)).1,
    ((r2_adapter_init_correct cfgR2).2 "https://acct.r2.cloudflarestorage.com"
      rfl (by decide)).2⟩

/-! ### Scheduler loop: `scheduler.run_scheduler`

`croniter` is an external collaborator: the next cron occurrence after a
base time is an injected function `cronNext`.  The loop reads the clock
twice per iteration (once inside `get_next_run_time`, once for the wait
computation); a clock is an injected stream of readings indexed by read
count. -/

/-- An observable event of the scheduler loop. -/
inductive SchedEvent where
  | computeNext (nextRun : Int)
  | sleepFor (seconds : Int)
  | jobRun
  deriving DecidableEq, Repr

/-- One iteration of the `while True` loop: recompute `next_run` from
the first clock reading, compute the wait from the second, sleep only
when the wait is strictly positive, then run one backup job. -/
def scheduler_iteration (cronNext : Int → Int) (tBase tNow : Int) :
    List SchedEvent :=
  let next_run := cronNext tBase
  let wait_seconds := next_run - tNow
  .computeNext next_run ::
    ((if 0 < wait_seconds then [.sleepFor wait_seconds] else []) ++ [.jobRun])

/-- The first `n` iterations of the loop starting at read index `2 * i`:
each iteration consumes the next two clock readings and appends its
events. -/
def scheduler_trace (cronNext : Int → Int) (clock : Nat → Int) :
    Nat → Nat → List SchedEvent
  | _, 0 => []
  | i, n + 1 =>
    scheduler_iteration cronNext (clock (2 * i)) (clock (2 * i + 1)) ++
      scheduler_trace cronNext clock (i + 1) n

/-! ### Claim C8 -/

/-- C8: every loop iteration recomputes the next run time from the
current clock reading — the trace from iteration `i` on depends only on
clock readings from `2 * i` on, never on a stored previous tick — and it
sleeps exactly when the computed wait is strictly positive; with wait
`≤ 0` the job runs immediately with no sleep event. -/
theorem run_scheduler_correct (cronNext : Int → Int) (clock clock2 : Nat → Int)
    (i n : Nat) (tBase tNow : Int) :
    scheduler_trace cronNext clock i (n + 1) =
      scheduler_iteration cronNext (clock (2 * i)) (clock (2 * i + 1)) ++
        scheduler_trace cronNext clock (i + 1) n ∧
    ((∃ w, SchedEvent.sleepFor w ∈ scheduler_iteration cronNext tBase tNow) ↔
      0 < cronNext tBase - tNow) ∧
    (cronNext tBase - tNow ≤ 0 →
      scheduler_iteration cronNext tBase tNow =
        [.computeNext (cronNext tBase), .jobRun]) ∧
    (0 < cronNext tBase - tNow →
      scheduler_iteration cronNext tBase tNow =
        [.computeNext (cronNext tBase), .sleepFor (cronNext tBase - tNow), .jobRun]) ∧
    ((∀ m, 2 * i ≤ m → clock m = clock2 m) →
      scheduler_trace cronNext clock i n = scheduler_trace cronNext clock2 i n) := by
  refine ⟨rfl, ?_, fun hle => ?_, fun hpos => ?_, fun hagree => ?_⟩
  · constructor
    · rintro ⟨w, hw⟩
      by_contra hle
      push_neg at hle
      have : ¬ 0 < cronNext tBase - tNow := by omega
      simp [scheduler_iteration, this] at hw
    · intro hpos
      exact ⟨cronNext tBase - tNow, by simp [scheduler_iteration, hpos]⟩
  · have : ¬ 0 < cronNext tBase - tNow := by omega
    simp [scheduler_iteration, this]
  · simp [scheduler_iteration, hpos]
  · induction n generalizing i with
    | zero => rfl
    | succ k ih =>
      have h1 : clock (2 * i) = clock2 (2 * i) := hagree _ (by omega)
      have h2 : clock (2 * i + 1) = clock2 (2 * i + 1) := hagree _ (by omega)
      have hrest := ih (i + 1) (fun m hm => hagree m (by omega))
      simp [scheduler_trace, h1, h2, hrest]

/-- Hourly schedule around Scenario B: the next run after `t` is the
next multiple of 3600. -/
def cronHourly : Int → Int := fun t => (t / 3600 + 1) * 3600

/-- A clock on which the first iteration starts late (wait elapsed) and
the second wakes before its tick. -/
def clockSkewed : Nat → Int
  | 0 => 7200
  | 1 => 10900
  | _ => 10900

/-- Witness for C8: with the hourly schedule, a second reading past the
tick runs the job immediately (no sleep), and one before the tick sleeps
for exactly the remaining wait. -/
theorem run_scheduler_correct_witness :
    (cronHourly 7200 - 10900 ≤ 0) ∧
    scheduler_iteration cronHourly 7200 10900 =
      [.computeNext 10800, .jobRun] ∧
    (0 < cronHourly 7200 - 7300) ∧
    scheduler_iteration cronHourly 7200 7300 =
      [.computeNext 10800, .sleepFor 3500, .jobRun] ∧
    ((∀ m, 2 * 0 ≤ m → clockSkewed m = clockSkewed m) →
      scheduler_trace cronHourly clockSkewed 0 2 =
        scheduler_trace cronHourly clockSkewed 0 2) :=
  ⟨by decide,
    (run_scheduler_correct cronHourly clockSkewed clockSkewed 0 0 7200 10900).2.2.1
      (by decide),
    by decide,
    (run_scheduler_correct cronHourly clockSkewed clockSkewed 0 0 7200 7300).2.2.2.1
      (by decide),
    (run_scheduler_correct cronHourly clockSkewed clockSkewed 0 2 7200 7300).2.2.2.2⟩

end NestVault
